import Mathlib

/-
Verification of the shapes library (src/func.go).

The Go package defines three value types, Circle, Triangle and Rectangle,
each implementing the Shape interface with two methods, Perimeter and Area.
We embed float64 arithmetic as exact real arithmetic.  The only operation
in the package that can produce a non-numeric float64 is math.Sqrt, which
returns NaN on negative inputs; we model its result type as GoFloat, a
real number or NaN, and goSqrt below mirrors math.Sqrt.
-/

noncomputable section

namespace Shapes

/-- A float64 result that is either a real value or NaN.  Only math.Sqrt
can introduce NaN in this package. -/
inductive GoFloat where
  | val : ℝ → GoFloat
  | nan : GoFloat
  deriving DecidableEq

/-- Model of Go math.Sqrt: NaN on negative input, the real square root
otherwise. -/
def goSqrt (x : ℝ) : GoFloat :=
  if x < 0 then GoFloat.nan else GoFloat.val (Real.sqrt x)

/-- type Circle struct { Radius float64 } -/
structure Circle where
  Radius : ℝ

/-- func (c Circle) Perimeter() float64 { return 2 * math.Pi * c.Radius } -/
def Circle.Perimeter (c : Circle) : ℝ :=
  2 * Real.pi * c.Radius

/-- func (c Circle) Area() float64 { return math.Pi * c.Radius * c.Radius } -/
def Circle.Area (c : Circle) : ℝ :=
  Real.pi * c.Radius * c.Radius

/-- type Triangle struct { A, B, C float64 } -/
structure Triangle where
  A : ℝ
  B : ℝ
  C : ℝ

/-- func (t Triangle) Perimeter() float64 { return t.A + t.B + t.C } -/
def Triangle.Perimeter (t : Triangle) : ℝ :=
  t.A + t.B + t.C

/-- func (t Triangle) Area() float64:
p := t.Perimeter() / 2; return math.Sqrt(p * (p - t.A) * (p - t.B) * (p - t.C)) -/
def Triangle.Area (t : Triangle) : GoFloat :=
  let p := t.Perimeter / 2
  goSqrt (p * (p - t.A) * (p - t.B) * (p - t.C))

/-- type Rectangle struct { Width, Height float64 } -/
structure Rectangle where
  Width : ℝ
  Height : ℝ

/-- func (r Rectangle) Perimeter() float64 { return 2 * (r.Width + r.Height) } -/
def Rectangle.Perimeter (r : Rectangle) : ℝ :=
  2 * (r.Width + r.Height)

/-- func (r Rectangle) Area() float64 { return r.Width * r.Height } -/
def Rectangle.Area (r : Rectangle) : ℝ :=
  r.Width * r.Height

/-- The Shape interface: a tagged union over the three implementing
value types. -/
inductive Shape where
  | circle : Circle → Shape
  | triangle : Triangle → Shape
  | rectangle : Rectangle → Shape

/-- Dynamic dispatch of Perimeter through the Shape interface. -/
def Shape.Perimeter : Shape → ℝ
  | .circle c => c.Perimeter
  | .triangle t => t.Perimeter
  | .rectangle r => r.Perimeter

/-- Dynamic dispatch of Area through the Shape interface.  Circle and
Rectangle areas are always numeric; a Triangle area may be NaN. -/
def Shape.Area : Shape → GoFloat
  | .circle c => GoFloat.val c.Area
  | .triangle t => t.Area
  | .rectangle r => GoFloat.val r.Area

/-- Round a real number to the nearest integer, ties to even, as IEEE-754
round-to-nearest prescribes for the significand. -/
def rndNE (y : ℝ) : ℤ :=
  if Int.fract y = 1 / 2 then (if Even ⌊y⌋ then ⌊y⌋ else ⌊y⌋ + 1) else round y

/-- Model of binary64 (Go float64) rounding in the normal range: scale the
input so that its 53-bit significand becomes an integer part, round to
nearest with ties to even, and scale back.  Overflow and subnormals are not
modelled; the values considered here stay far inside the normal range. -/
def fl64 (x : ℝ) : ℝ :=
  if x = 0 then 0
  else (rndNE (x * 2 ^ ((52 : ℤ) - ⌊Real.logb 2 |x|⌋)) : ℝ) *
    2 ^ (⌊Real.logb 2 |x|⌋ - 52)

/-- Float64 addition: the exact sum, rounded to binary64. -/
def addF (x y : ℝ) : ℝ := fl64 (x + y)

/-- Float64-faithful triangle perimeter: the source expression
t.A + t.B + t.C evaluates left-associated in Go, with binary64 rounding
after each addition. -/
def Triangle.PerimeterFloat (t : Triangle) : ℝ :=
  addF (addF t.A t.B) t.C

/-- Unfolding lemma: the perimeter of a triangle built from sides a, b, c. -/
theorem Triangle.Perimeter_mk (a b c : ℝ) :
    Triangle.Perimeter ⟨a, b, c⟩ = a + b + c := rfl

/-- Unfolding lemma: the area of a triangle built from sides a, b, c is
goSqrt of the Heron radicand. -/
theorem Triangle.Area_mk (a b c : ℝ) :
    Triangle.Area ⟨a, b, c⟩ =
      goSqrt ((a + b + c) / 2 * ((a + b + c) / 2 - a) *
        ((a + b + c) / 2 - b) * ((a + b + c) / 2 - c)) := rfl

/-- C1: For every Triangle, whenever the Heron radicand
p * (p - a) * (p - b) * (p - c) with semi-perimeter p = Perimeter / 2 is
nonnegative, Area equals the square root of that radicand. -/
theorem triangle_area_heron (t : Shapes.Triangle)
    (h : 0 ≤ t.Perimeter / 2 * (t.Perimeter / 2 - t.A) *
      (t.Perimeter / 2 - t.B) * (t.Perimeter / 2 - t.C)) :
    t.Area = Shapes.GoFloat.val (Real.sqrt (t.Perimeter / 2 *
      (t.Perimeter / 2 - t.A) * (t.Perimeter / 2 - t.B) *
      (t.Perimeter / 2 - t.C))) := by
  show Shapes.goSqrt (t.Perimeter / 2 * (t.Perimeter / 2 - t.A) *
    (t.Perimeter / 2 - t.B) * (t.Perimeter / 2 - t.C)) = _
  unfold Shapes.goSqrt
  rw [if_neg (not_lt.mpr h)]

/-- Witness for C1 at the 3-4-5 triangle, whose Heron radicand is 36. -/
theorem triangle_area_heron_witness :
    0 ≤ Shapes.Triangle.Perimeter ⟨3, 4, 5⟩ / 2 *
      (Shapes.Triangle.Perimeter ⟨3, 4, 5⟩ / 2 - 3) *
      (Shapes.Triangle.Perimeter ⟨3, 4, 5⟩ / 2 - 4) *
      (Shapes.Triangle.Perimeter ⟨3, 4, 5⟩ / 2 - 5) ∧
    Shapes.Triangle.Area ⟨3, 4, 5⟩ =
      Shapes.GoFloat.val (Real.sqrt (Shapes.Triangle.Perimeter ⟨3, 4, 5⟩ / 2 *
        (Shapes.Triangle.Perimeter ⟨3, 4, 5⟩ / 2 - 3) *
        (Shapes.Triangle.Perimeter ⟨3, 4, 5⟩ / 2 - 4) *
        (Shapes.Triangle.Perimeter ⟨3, 4, 5⟩ / 2 - 5))) :=
  ⟨by norm_num [Shapes.Triangle.Perimeter],
   triangle_area_heron ⟨3, 4, 5⟩ (by norm_num [Shapes.Triangle.Perimeter])⟩

/-- C2: For every Triangle whose Heron radicand is negative (the sides
violate the triangle inequality), Area returns NaN; the function is total
and raises no error. -/
theorem triangle_area_nan_on_negative_radicand (t : Shapes.Triangle)
    (h : t.Perimeter / 2 * (t.Perimeter / 2 - t.A) *
      (t.Perimeter / 2 - t.B) * (t.Perimeter / 2 - t.C) < 0) :
    t.Area = Shapes.GoFloat.nan := by
  show Shapes.goSqrt (t.Perimeter / 2 * (t.Perimeter / 2 - t.A) *
    (t.Perimeter / 2 - t.B) * (t.Perimeter / 2 - t.C)) = _
  unfold Shapes.goSqrt
  rw [if_pos h]

/-- Witness for C2 at the sides 1, 1, 5, which violate the triangle
inequality: the radicand is (7/2)(5/2)(5/2)(-3/2) < 0 and Area is NaN. -/
theorem triangle_area_nan_witness :
    Shapes.Triangle.Perimeter ⟨1, 1, 5⟩ / 2 *
      (Shapes.Triangle.Perimeter ⟨1, 1, 5⟩ / 2 - 1) *
      (Shapes.Triangle.Perimeter ⟨1, 1, 5⟩ / 2 - 1) *
      (Shapes.Triangle.Perimeter ⟨1, 1, 5⟩ / 2 - 5) < 0 ∧
    Shapes.Triangle.Area ⟨1, 1, 5⟩ = Shapes.GoFloat.nan :=
  ⟨by norm_num [Shapes.Triangle.Perimeter],
   triangle_area_nan_on_negative_radicand ⟨1, 1, 5⟩
     (by norm_num [Shapes.Triangle.Perimeter])⟩

/-- C3: For every Circle with nonnegative radius, Perimeter equals
2 * pi * r and Area equals pi * r ^ 2 (exactly, in the real-valued model);
in particular a radius of 0 gives perimeter 0 and area 0. -/
theorem circle_formulas (c : Shapes.Circle) (h : 0 ≤ c.Radius) :
    (c.Perimeter = 2 * Real.pi * c.Radius ∧
     c.Area = Real.pi * c.Radius ^ 2) ∧
    (c.Radius = 0 → c.Perimeter = 0 ∧ c.Area = 0) := by
  refine ⟨⟨rfl, by rw [Shapes.Circle.Area]; ring⟩, fun hz => ?_⟩
  constructor
  · rw [Shapes.Circle.Perimeter, hz]; ring
  · rw [Shapes.Circle.Area, hz]; ring

/-- Witness for C3 at the boundary circle of radius 0. -/
theorem circle_formulas_witness :
    0 ≤ (Shapes.Circle.mk 0).Radius ∧
    (((Shapes.Circle.mk 0).Perimeter = 2 * Real.pi * (Shapes.Circle.mk 0).Radius ∧
      (Shapes.Circle.mk 0).Area = Real.pi * (Shapes.Circle.mk 0).Radius ^ 2) ∧
     ((Shapes.Circle.mk 0).Radius = 0 →
      (Shapes.Circle.mk 0).Perimeter = 0 ∧ (Shapes.Circle.mk 0).Area = 0)) :=
  ⟨le_refl 0, circle_formulas (Shapes.Circle.mk 0) (le_refl 0)⟩

/-- C4: For every Triangle, with any real sides whatsoever, Perimeter
equals a + b + c; the function is total on all real inputs. -/
theorem triangle_perimeter_total (t : Shapes.Triangle) :
    t.Perimeter = t.A + t.B + t.C := rfl

/-- C5: For every Rectangle, Perimeter equals 2 * (width + height) and
Area equals width * height. -/
theorem rectangle_formulas (r : Shapes.Rectangle) :
    r.Perimeter = 2 * (r.Width + r.Height) ∧ r.Area = r.Width * r.Height :=
  ⟨rfl, rfl⟩

/-- Helper: the square root of 36 is 6. -/
theorem sqrt_thirtysix : Real.sqrt 36 = 6 := by
  rw [show (36 : ℝ) = 6 ^ 2 by norm_num, Real.sqrt_sq (by norm_num : (0:ℝ) ≤ 6)]

/-- C6: The 3-4-5 triangle has perimeter exactly 12, and its area is a
numeric value within 1/1000 of 6 (in fact exactly 6). -/
theorem triangle_345_values :
    Shapes.Triangle.Perimeter ⟨3, 4, 5⟩ = 12 ∧
    ∃ x : ℝ, Shapes.Triangle.Area ⟨3, 4, 5⟩ = Shapes.GoFloat.val x ∧
      |x - 6| < 1 / 1000 := by
  refine ⟨by norm_num [Shapes.Triangle.Perimeter], 6, ?_, by norm_num⟩
  rw [Shapes.Triangle.Area_mk]
  rw [show ((3 : ℝ) + 4 + 5) / 2 * (((3 : ℝ) + 4 + 5) / 2 - 3) *
    (((3 : ℝ) + 4 + 5) / 2 - 4) * (((3 : ℝ) + 4 + 5) / 2 - 5) = 36 by norm_num]
  unfold Shapes.goSqrt
  rw [if_neg (by norm_num : ¬(36 : ℝ) < 0), sqrt_thirtysix]

/-- C7: The 6-by-4 rectangle has perimeter exactly 20 and area exactly 24;
the 5-by-5 rectangle (a square) has perimeter exactly 20 and area
exactly 25. -/
theorem rectangle_values :
    Shapes.Rectangle.Perimeter ⟨6, 4⟩ = 20 ∧
    Shapes.Rectangle.Area ⟨6, 4⟩ = 24 ∧
    Shapes.Rectangle.Perimeter ⟨5, 5⟩ = 20 ∧
    Shapes.Rectangle.Area ⟨5, 5⟩ = 25 := by
  refine ⟨?_, ?_, ?_, ?_⟩ <;>
    norm_num [Shapes.Rectangle.Perimeter, Shapes.Rectangle.Area]

/-- C8: Perimeter and Area, dispatched through the Shape interface, are
pure deterministic functions of the shape value: equal shape values give
identical results, and the shape itself is an immutable value. -/
theorem shape_operations_deterministic (s₁ s₂ : Shapes.Shape) (h : s₁ = s₂) :
    Shapes.Shape.Perimeter s₁ = Shapes.Shape.Perimeter s₂ ∧
    Shapes.Shape.Area s₁ = Shapes.Shape.Area s₂ := by
  rw [h]; exact ⟨rfl, rfl⟩

/-- Witness for C8 at a concrete circle of radius 1 wrapped in the Shape
interface, compared with itself. -/
theorem shape_operations_deterministic_witness :
    Shapes.Shape.Perimeter (Shapes.Shape.circle ⟨1⟩) =
      Shapes.Shape.Perimeter (Shapes.Shape.circle ⟨1⟩) ∧
    Shapes.Shape.Area (Shapes.Shape.circle ⟨1⟩) =
      Shapes.Shape.Area (Shapes.Shape.circle ⟨1⟩) :=
  shape_operations_deterministic (Shapes.Shape.circle ⟨1⟩)
    (Shapes.Shape.circle ⟨1⟩) rfl

/-- Helper: rounding an exact integer returns it unchanged. -/
theorem rndNE_intCast (n : ℤ) : Shapes.rndNE (n : ℝ) = n := by
  unfold Shapes.rndNE
  rw [Int.fract_intCast]
  rw [if_neg (by norm_num), round_intCast]

/-- Helper: a tie halfway above an even integer rounds down to it. -/
theorem rndNE_int_add_half_even (n : ℤ) (hn : Even n) :
    Shapes.rndNE ((n : ℝ) + 1 / 2) = n := by
  have hf : Int.fract ((n : ℝ) + 1 / 2) = 1 / 2 := by
    rw [Int.fract_int_add]
    exact Int.fract_eq_self.mpr ⟨by norm_num, by norm_num⟩
  have h0 : ⌊(1 / 2 : ℝ)⌋ = 0 := Int.floor_eq_iff.mpr ⟨by norm_num, by norm_num⟩
  have hfl : ⌊(n : ℝ) + 1 / 2⌋ = n := by
    rw [Int.floor_int_add, h0, add_zero]
  unfold Shapes.rndNE
  rw [if_pos hf, hfl, if_pos hn]

/-- Helper: the base-2 logarithm of a real in the interval from 2 pow 53
to 2 pow 54 has floor 53. -/
theorem floor_logb_two_53 (x : ℝ) (h1 : (2 : ℝ) ^ (53 : ℕ) ≤ x)
    (h2 : x < (2 : ℝ) ^ (54 : ℕ)) : ⌊Real.logb 2 x⌋ = 53 := by
  have hx : 0 < x := lt_of_lt_of_le (by positivity) h1
  rw [Int.floor_eq_iff]
  constructor
  · rw [show ((53 : ℤ) : ℝ) = ((53 : ℕ) : ℝ) by norm_num,
      Real.le_logb_iff_rpow_le (by norm_num) hx, Real.rpow_natCast]
    exact h1
  · rw [show ((53 : ℤ) : ℝ) + 1 = ((54 : ℕ) : ℝ) by norm_num,
      Real.logb_lt_iff_lt_rpow (by norm_num) hx, Real.rpow_natCast]
    exact h2

/-- Helper: the base-2 logarithm of 2 has floor 1. -/
theorem floor_logb_two_two : ⌊Real.logb 2 2⌋ = 1 := by
  rw [Real.logb_self_eq_one (by norm_num)]
  exact Int.floor_one

/-- Helper: adding 1 to 10 pow 16 in float64 is a tie halfway between
10 pow 16 (ulp-significand 5e15, even) and the next float; ties-to-even
rounds it back down to 10 pow 16 exactly. -/
theorem fl64_big_tie : Shapes.fl64 ((10 : ℝ) ^ 16 + 1) = (10 : ℝ) ^ 16 := by
  have he : ⌊Real.logb 2 ((10 : ℝ) ^ 16 + 1)⌋ = 53 :=
    floor_logb_two_53 _ (by norm_num) (by norm_num)
  unfold Shapes.fl64
  rw [if_neg (by norm_num : ((10 : ℝ) ^ 16 + 1) ≠ 0),
    abs_of_pos (by norm_num : (0 : ℝ) < (10 : ℝ) ^ 16 + 1), he]
  rw [show ((52 : ℤ) - 53) = -1 by norm_num, show ((53 : ℤ) - 52) = 1 by norm_num]
  rw [show ((10 : ℝ) ^ 16 + 1) * 2 ^ (-1 : ℤ) = ((5000000000000000 : ℤ) : ℝ) + 1 / 2 by
    rw [zpow_neg, zpow_one]; push_cast; norm_num]
  rw [rndNE_int_add_half_even 5000000000000000 (by rw [Int.even_iff]; norm_num)]
  push_cast
  norm_num

/-- Helper: 1 plus 1 is exactly 2 in float64. -/
theorem fl64_two : Shapes.fl64 ((1 : ℝ) + 1) = 2 := by
  rw [show ((1 : ℝ) + 1) = 2 by norm_num]
  unfold Shapes.fl64
  rw [if_neg (by norm_num : (2 : ℝ) ≠ 0),
    abs_of_pos (by norm_num : (0 : ℝ) < 2), floor_logb_two_two]
  rw [show ((52 : ℤ) - 1) = 51 by norm_num, show ((1 : ℤ) - 52) = -51 by norm_num]
  rw [show (2 : ℝ) * 2 ^ (51 : ℤ) = ((4503599627370496 : ℤ) : ℝ) by
    push_cast; norm_num]
  rw [rndNE_intCast]
  push_cast
  rw [zpow_neg]
  norm_num

/-- Helper: 10 pow 16 plus 2 is exactly representable in binary64
(significand 5e15 plus 1 is below 2 pow 53), so rounding fixes it. -/
theorem fl64_big_plus_two :
    Shapes.fl64 ((10 : ℝ) ^ 16 + 2) = (10 : ℝ) ^ 16 + 2 := by
  have he : ⌊Real.logb 2 ((10 : ℝ) ^ 16 + 2)⌋ = 53 :=
    floor_logb_two_53 _ (by norm_num) (by norm_num)
  unfold Shapes.fl64
  rw [if_neg (by norm_num : ((10 : ℝ) ^ 16 + 2) ≠ 0),
    abs_of_pos (by norm_num : (0 : ℝ) < (10 : ℝ) ^ 16 + 2), he]
  rw [show ((52 : ℤ) - 53) = -1 by norm_num, show ((53 : ℤ) - 52) = 1 by norm_num]
  rw [show ((10 : ℝ) ^ 16 + 2) * 2 ^ (-1 : ℤ) = ((5000000000000001 : ℤ) : ℝ) by
    rw [zpow_neg, zpow_one]; push_cast; norm_num]
  rw [rndNE_intCast]
  push_cast
  norm_num

/-- C9 counterexample: under the float64 semantics of the source, in which
each addition of t.A + t.B + t.C rounds to binary64, the perimeter of the
triangle with sides 1e16, 1, 1 is 1e16 while the permuted sides 1, 1, 1e16
give 1e16 + 2, so permutation invariance fails in the program. -/
theorem triangle_permutation_not_float_invariant :
    Shapes.Triangle.PerimeterFloat ⟨(10 : ℝ) ^ 16, 1, 1⟩ ≠
      Shapes.Triangle.PerimeterFloat ⟨1, 1, (10 : ℝ) ^ 16⟩ := by
  have e1 : Shapes.Triangle.PerimeterFloat ⟨(10 : ℝ) ^ 16, 1, 1⟩ = (10 : ℝ) ^ 16 := by
    show Shapes.fl64 (Shapes.fl64 ((10 : ℝ) ^ 16 + 1) + 1) = (10 : ℝ) ^ 16
    rw [fl64_big_tie]
    exact fl64_big_tie
  have e2 : Shapes.Triangle.PerimeterFloat ⟨1, 1, (10 : ℝ) ^ 16⟩ = (10 : ℝ) ^ 16 + 2 := by
    show Shapes.fl64 (Shapes.fl64 ((1 : ℝ) + 1) + (10 : ℝ) ^ 16) = (10 : ℝ) ^ 16 + 2
    rw [fl64_two, show ((2 : ℝ) + (10 : ℝ) ^ 16) = (10 : ℝ) ^ 16 + 2 by ring]
    exact fl64_big_plus_two
  rw [e1, e2]
  norm_num

/-- C9 (amended): with the additions and multiplications of the source
performed in exact real arithmetic, both Perimeter and Area of a Triangle
are invariant under every permutation of the three side lengths, because
the perimeter sum and the Heron radicand are symmetric polynomials; under
the float64 rounding the program actually performs, the equality can fail
(see the counterexample above). -/
theorem triangle_permutation_invariant (a b c : ℝ) :
    (Shapes.Triangle.Perimeter ⟨a, b, c⟩ = Shapes.Triangle.Perimeter ⟨a, c, b⟩ ∧
     Shapes.Triangle.Perimeter ⟨a, b, c⟩ = Shapes.Triangle.Perimeter ⟨b, a, c⟩ ∧
     Shapes.Triangle.Perimeter ⟨a, b, c⟩ = Shapes.Triangle.Perimeter ⟨b, c, a⟩ ∧
     Shapes.Triangle.Perimeter ⟨a, b, c⟩ = Shapes.Triangle.Perimeter ⟨c, a, b⟩ ∧
     Shapes.Triangle.Perimeter ⟨a, b, c⟩ = Shapes.Triangle.Perimeter ⟨c, b, a⟩) ∧
    (Shapes.Triangle.Area ⟨a, b, c⟩ = Shapes.Triangle.Area ⟨a, c, b⟩ ∧
     Shapes.Triangle.Area ⟨a, b, c⟩ = Shapes.Triangle.Area ⟨b, a, c⟩ ∧
     Shapes.Triangle.Area ⟨a, b, c⟩ = Shapes.Triangle.Area ⟨b, c, a⟩ ∧
     Shapes.Triangle.Area ⟨a, b, c⟩ = Shapes.Triangle.Area ⟨c, a, b⟩ ∧
     Shapes.Triangle.Area ⟨a, b, c⟩ = Shapes.Triangle.Area ⟨c, b, a⟩) := by
  constructor
  · refine ⟨?_, ?_, ?_, ?_, ?_⟩ <;> simp only [Shapes.Triangle.Perimeter_mk] <;> ring
  · refine ⟨?_, ?_, ?_, ?_, ?_⟩ <;> simp only [Shapes.Triangle.Area_mk] <;>
      exact congrArg Shapes.goSqrt (by ring)

/-- C10: For every Triangle with nonnegative sides that is exactly
degenerate (a + b = c), the Heron radicand vanishes and Area is the
numeric value 0, not NaN. -/
theorem triangle_degenerate_area_zero (t : Shapes.Triangle)
    (hA : 0 ≤ t.A) (hB : 0 ≤ t.B) (hC : 0 ≤ t.C) (hdeg : t.A + t.B = t.C) :
    t.Area = Shapes.GoFloat.val 0 := by
  obtain ⟨a, b, c⟩ := t
  simp only at hA hB hC hdeg
  rw [Shapes.Triangle.Area_mk]
  rw [show (a + b + c) / 2 * ((a + b + c) / 2 - a) * ((a + b + c) / 2 - b) *
    ((a + b + c) / 2 - c) = 0 by rw [← hdeg]; ring]
  unfold Shapes.goSqrt
  rw [if_neg (by norm_num : ¬(0 : ℝ) < 0), Real.sqrt_zero]

/-- Witness for C10 at the degenerate triangle with sides 1, 2, 3. -/
theorem triangle_degenerate_area_zero_witness :
    (0 : ℝ) ≤ 1 ∧ (0 : ℝ) ≤ 2 ∧ (0 : ℝ) ≤ 3 ∧ (1 : ℝ) + 2 = 3 ∧
    Shapes.Triangle.Area ⟨1, 2, 3⟩ = Shapes.GoFloat.val 0 :=
  ⟨by norm_num, by norm_num, by norm_num, by norm_num,
   triangle_degenerate_area_zero ⟨1, 2, 3⟩ (by norm_num) (by norm_num)
     (by norm_num) (by norm_num)⟩

end Shapes

end
